import Mathlib

/-!
Verification development for the Clarity rewrite backend
(`src/api/rewrite.js`). The usage-quota and tier-entitlement engine that
gates every rewrite request is embedded shallowly: JavaScript objects
become structures, nullable numeric fields become `Option Nat` (JS
coerces `null` to `0` in arithmetic and comparisons, captured by
`jsOrZero`), and the handler's effects (the date-rollover update, the
text-transform call, the usage commit) become explicit state passing over
a `UserData` record together with an `Env` of collaborator outcomes.
-/

namespace Clarity

/-- Models the JavaScript idiom `x || 0` on a possibly-null numeric field,
which also matches how `null` is coerced in `null >= limit`. -/
def jsOrZero : Option Nat → Nat
  | none => 0
  | some n => n

/-- Models `text.trim().length === 0` (line 32): a string trims to the empty
string exactly when every character is whitespace. -/
def isBlank (s : String) : Bool := s.data.all Char.isWhitespace

/-- Models `style.toLowerCase()` (lines 116, 141, 269) on the ASCII style
identifiers the handler compares against. -/
def jsToLower (s : String) : String := String.mk (s.data.map Char.toLower)

/-- Models `userData.tier || 'free'` (line 71): a missing or empty tier
string falls back to the free tier. -/
def jsOrFree : Option String → String
  | none => "free"
  | some s => if s = "" then "free" else s

/-- The per-user row of the `users` table, restricted to the fields the
rewrite handler reads and writes. -/
structure UserData where
  tier : Option String
  rewrites_today : Option Nat
  rewrites_total : Option Nat
  last_rewrite_date : String
deriving Repr, DecidableEq

/-- The `dailyLimits` object literal (lines 74-78 and 187-191):
`{ free: 2, standard: 10, pro: 20 }`. -/
def dailyLimits (tier : String) : Option Nat :=
  if tier = "free" then some 2
  else if tier = "standard" then some 10
  else if tier = "pro" then some 20
  else none

/-- `dailyLimits[userTier] || 2` (lines 80 and 192). -/
def userLimitOf (userTier : String) : Nat :=
  match dailyLimits userTier with
  | some n => n
  | none => 2

/-- `freeStyles` (line 113). -/
def freeStyles : List String := ["professional", "direct", "email"]

/-- `paidStyles` (line 114). -/
def paidStyles : List String := ["persuasive", "casual", "formal", "empathetic"]

/-- The tier-specific upgrade message of the 429 response (lines 99-103). -/
def upgradeMessage (userTier : String) : String :=
  if userTier = "free" then
    "You\x27ve used all 2 free rewrites today. Upgrade to Standard ($9/month) for 10 rewrites/day."
  else if userTier = "standard" then
    "You\x27ve used all 10 rewrites today. Upgrade to Pro ($15/month) for 20 rewrites/day."
  else
    "You\x27ve reached your daily limit of 20 rewrites."

/-- The message of the 403 response (line 119). -/
def premiumStyleMessage (style : String) : String :=
  "The \"" ++ style ++ "\" style is only available on Standard ($9/month) and Pro ($15/month) plans. Upgrade to access all 7 styles!"

/-- Date rollover (lines 85-95): if the stored `last_rewrite_date` differs
from today, the row is updated with `rewrites_today = 0` and
`last_rewrite_date = today` before any quota or style check runs. -/
def rollover (today : String) (ud : UserData) : UserData :=
  if ud.last_rewrite_date ≠ today then
    { ud with rewrites_today := some 0, last_rewrite_date := today }
  else ud

/-- The three possible outcomes of the quota/entitlement evaluation
(lines 82-122). -/
inductive Decision where
  | quotaExceeded : Decision
  | styleNotEntitled : Decision
  | admitted : Decision
deriving Repr, DecidableEq

/-- The quota engine (lines 82-122): perform the date rollover, then the
daily-limit check (line 98), then the paid-style check for free-tier users
(line 116). Returns the decision together with the persisted record state
after the rollover. -/
def evaluate (today style : String) (ud : UserData) : Decision × UserData :=
  if jsOrZero (rollover today ud).rewrites_today ≥ userLimitOf (jsOrFree ud.tier) then
    (Decision.quotaExceeded, rollover today ud)
  else if jsOrFree ud.tier = "free" ∧ jsToLower style ∈ paidStyles then
    (Decision.styleNotEntitled, rollover today ud)
  else
    (Decision.admitted, rollover today ud)

/-- The usage commit (lines 162-169): increment `rewrites_today` and
`rewrites_total` by one (each read through `|| 0`). -/
def commit (ud : UserData) : UserData :=
  { ud with
      rewrites_today := some (jsOrZero ud.rewrites_today + 1),
      rewrites_total := some (jsOrZero ud.rewrites_total + 1) }

/-- The `remaining` value of the 200 response (lines 193-195):
`userTier === 'free' && userData ? (userLimit - ((userData.rewrites_today || 0) + 1)) : userLimit`,
where `userData.rewrites_today` is the local (pre-commit, post-rollover)
counter. -/
def remainingAfter (userTier : String) (udOpt : Option UserData) : Int :=
  match udOpt with
  | some ud =>
      if userTier = "free" then
        (userLimitOf userTier : Int) - ((jsOrZero ud.rewrites_today : Int) + 1)
      else (userLimitOf userTier : Int)
  | none => (userLimitOf userTier : Int)

/-- The `professional` prompt template (lines 214-219), with the
`${text}` interpolation made explicit. -/
def professionalPrompt (text : String) : String :=
  "Transform this rough message into a professional, polished communication. Maintain the key points and intent, but make it business-appropriate and clear. Do not add greetings or closings unless they\x27re in the original.\n\nInput:\n"
  ++ text ++ "\n\nTransform this into a professional message:"

/-- The `email` prompt template (lines 221-231). -/
def emailPrompt (text : String) : String :=
  "Transform this into a complete, professional email. Create a full email format with:\n- An appropriate greeting (use a generic greeting like \"Hi,\" or \"Hello,\" unless a specific name is mentioned)\n- A clear, well-structured body that expands on the key points\n- A professional closing (use \"Best regards,\" or \"Thank you,\")\n\nMake the email longer and more detailed than the input, adding context and clarity while maintaining a professional tone. The output should be a ready-to-send email.\n\nInput:\n"
  ++ text ++ "\n\nTransform this into a complete professional email:"

/-- The `direct` prompt template (lines 233-238). -/
def directPrompt (text : String) : String :=
  "Transform this into a clear, concise, direct message. Get straight to the point. Remove unnecessary words while being respectful. Do not add greetings or closings unless they\x27re in the original.\n\nInput:\n"
  ++ text ++ "\n\nTransform this into a direct message:"

/-- The `persuasive` prompt template (lines 240-245). -/
def persuasivePrompt (text : String) : String :=
  "Transform this into a persuasive, compelling message. Emphasize benefits and create a clear call to action while remaining authentic. Do not add greetings or closings unless they\x27re in the original.\n\nInput:\n"
  ++ text ++ "\n\nTransform this into a persuasive message:"

/-- The `casual` prompt template (lines 247-252). -/
def casualPrompt (text : String) : String :=
  "Transform this into a relaxed, informal message. Keep it natural and conversational, like you\x27re talking to a colleague or friend. Maintain clarity but drop the formality. Do not add greetings or closings unless they\x27re in the original.\n\nInput:\n"
  ++ text ++ "\n\nTransform this into a casual message:"

/-- The `formal` prompt template (lines 254-259). -/
def formalPrompt (text : String) : String :=
  "Transform this into a highly formal, polished communication. Use sophisticated language appropriate for executives, legal contexts, or official documents. Maintain absolute professionalism. Do not add greetings or closings unless they\x27re in the original.\n\nInput:\n"
  ++ text ++ "\n\nTransform this into a formal message:"

/-- The `empathetic` prompt template (lines 261-266). -/
def empatheticPrompt (text : String) : String :=
  "Transform this into a compassionate, understanding message. Show genuine care and consideration for the recipient\x27s perspective and feelings. Be warm, supportive, and tactful. Do not add greetings or closings unless they\x27re in the original.\n\nInput:\n"
  ++ text ++ "\n\nTransform this into an empathetic message:"

/-- The own properties of the `stylePrompts` object literal
(lines 213-267), keyed by the lowercased style: the seven prompt strings
it declares, and nothing else. Computed access on the object also reaches
the prototype chain; that is modelled by `jsIndex` below. -/
def stylePrompts (text : String) (key : String) : Option String :=
  if key = "professional" then some (professionalPrompt text)
  else if key = "email" then some (emailPrompt text)
  else if key = "direct" then some (directPrompt text)
  else if key = "persuasive" then some (persuasivePrompt text)
  else if key = "casual" then some (casualPrompt text)
  else if key = "formal" then some (formalPrompt text)
  else if key = "empathetic" then some (empatheticPrompt text)
  else none

/-- A JavaScript value produced by the computed property access
`stylePrompts[key]`: one of the object's own prompt strings, a member
inherited from `Object.prototype` (the `constructor` function or the
`__proto__` object — truthy, and not a string), or `undefined`. -/
inductive JsProp where
  | str : String → JsProp
  | protoMember : JsProp
  | undef : JsProp
deriving Repr, DecidableEq

/-- The computed property access `stylePrompts[key]` (line 269) including
the prototype chain: an own key yields its prompt string; the only
all-lowercase keys inherited from `Object.prototype` — `constructor` and
`__proto__`, the sole inherited names reachable through `toLowerCase()` —
yield the inherited member; every other key yields `undefined`. -/
def jsIndex (text : String) (key : String) : JsProp :=
  match stylePrompts text key with
  | some s => JsProp.str s
  | none =>
      if key = "constructor" ∨ key = "__proto__" then JsProp.protoMember
      else JsProp.undef

/-- Truthiness of a looked-up value under the `||` at line 269: a
non-empty string and an inherited prototype member are truthy,
`undefined` is falsy. -/
def jsTruthy : JsProp → Bool
  | JsProp.str s => !(s = "")
  | JsProp.protoMember => true
  | JsProp.undef => false

/-- `getPromptForStyle` (lines 212-270):
`stylePrompts[style.toLowerCase()] || stylePrompts.professional`. A truthy
lookup — an own prompt string, or the inherited `constructor` /
`__proto__` member — is returned as-is; only a falsy lookup falls back to
the professional prompt. -/
def getPromptForStyle (text style : String) : JsProp :=
  if jsTruthy (jsIndex text (jsToLower style)) then jsIndex text (jsToLower style)
  else JsProp.str (professionalPrompt text)

/-- The outcome of caller-identity resolution (lines 47-71, 125-128).
Every failure mode leaves the handler without a usage record:
no `Authorization` header or one without a Bearer scheme, a token that
fails Supabase verification, a verified user with no row in the `users`
table, or an exception thrown during resolution (caught at line 125 and
degraded to anonymous). -/
inductive AuthInput where
  | noHeader : AuthInput
  | invalidToken : AuthInput
  | noUserRecord : AuthInput
  | authThrew : AuthInput
  | userRecord : UserData → AuthInput
deriving Repr, DecidableEq

/-- The `userData` local after identity resolution: `some` only when a
verified user's database row was loaded. -/
def userDataOf : AuthInput → Option UserData
  | AuthInput.userRecord ud => some ud
  | _ => none

/-- The request body plus resolved identity. -/
structure Request where
  text : String
  style : String
  auth : AuthInput
deriving Repr, DecidableEq

/-- Collaborator outcomes fixed for one request: whether the
`ANTHROPIC_API_KEY` env var is set (line 41), the current UTC date string
(line 82), whether the Claude call succeeds (line 149) and the text it
returns (line 156), and whether the usage-update/history database block
(lines 160-183) succeeds; when it throws, the error is caught and
swallowed (line 180). -/
structure Env where
  anthropicKeySet : Bool
  today : String
  claudeOk : Bool
  claudeText : String
  dbCommitOk : Bool
deriving Repr, DecidableEq

/-- The JSON body fields used across the handler's responses. -/
structure Response where
  status : Nat
  result : Option String := none
  error : Option String := none
  message : Option String := none
  remaining : Option Int := none
deriving Repr, DecidableEq

/-- The handler's observable outcome: the HTTP response, the final state
of the caller's `users` row (`none` when the caller has no row), and the
value passed as the message content of the text-transform call (`none`
when no call was made). -/
structure HandlerOutput where
  resp : Response
  db : Option UserData
  prompt : Option JsProp := none
deriving Repr, DecidableEq

/-- The admitted tail of the handler (lines 132-200): call the
text-transform collaborator with `getPromptForStyle`; on failure return
500 with no commit (lines 149-153); on success commit usage for a
logged-in caller unless the database block throws (lines 159-184), then
return 200 with the rewritten text and the remaining count
(lines 186-200). -/
def finishAdmitted (req : Request) (env : Env) (udOpt : Option UserData)
    (userTier : String) : HandlerOutput :=
  if env.claudeOk = false then
    { resp := { status := 500, error := some "AI service error" },
      db := udOpt,
      prompt := some (getPromptForStyle req.text req.style) }
  else
    { resp := { status := 200, result := some env.claudeText,
                remaining := some (remainingAfter userTier udOpt) },
      db :=
        (match udOpt with
         | some ud1 => some (if env.dbCommitOk then commit ud1 else ud1)
         | none => none),
      prompt := some (getPromptForStyle req.text req.style) }

/-- The authenticated path (lines 73-122 feeding into 132-200): evaluate
the quota engine against the loaded row; a `quotaExceeded` decision yields
the 429 response with `remaining: 0` (lines 105-109), a
`styleNotEntitled` decision yields the 403 response with
`remaining: userLimit - (userData.rewrites_today || 0)` (lines 117-121),
and an admitted decision proceeds to the collaborator call. -/
def handleAuthed (req : Request) (env : Env) (ud : UserData) : HandlerOutput :=
  match evaluate env.today req.style ud with
  | (Decision.quotaExceeded, ud1) =>
      { resp := { status := 429, error := some "Daily limit reached",
                  message := some (upgradeMessage (jsOrFree ud.tier)),
                  remaining := some 0 },
        db := some ud1 }
  | (Decision.styleNotEntitled, ud1) =>
      { resp := { status := 403, error := some "Premium style",
                  message := some (premiumStyleMessage req.style),
                  remaining := some ((userLimitOf (jsOrFree ud.tier) : Int)
                    - (jsOrZero ud1.rewrites_today : Int)) },
        db := some ud1 }
  | (Decision.admitted, ud1) =>
      finishAdmitted req env (some ud1) (jsOrFree ud.tier)

/-- The whole handler (lines 12-209), after the CORS/method plumbing:
validate `text` (line 32) and `style` (line 36), check the API key
configuration (line 41), resolve identity, and dispatch. An anonymous
caller skips every quota and style check and is metered nowhere
(line 159 guards the commit on `userId && userData`); its `remaining` is
computed with the default `userTier = 'free'` and no record. -/
def handler (req : Request) (env : Env) : HandlerOutput :=
  if isBlank req.text = true then
    { resp := { status := 400, error := some "Text is required" },
      db := userDataOf req.auth }
  else if req.style = "" then
    { resp := { status := 400, error := some "Style is required" },
      db := userDataOf req.auth }
  else if env.anthropicKeySet = false then
    { resp := { status := 500, error := some "Server configuration error" },
      db := userDataOf req.auth }
  else
    match userDataOf req.auth with
    | none => finishAdmitted req env none "free"
    | some ud => handleAuthed req env ud

/-! ### Helper lemmas about the embedded operations -/

theorem rollover_rewrites_total (t : String) (ud : UserData) :
    (rollover t ud).rewrites_total = ud.rewrites_total := by
  unfold rollover; split <;> rfl

theorem rollover_tier (t : String) (ud : UserData) :
    (rollover t ud).tier = ud.tier := by
  unfold rollover; split <;> rfl

theorem rollover_last (t : String) (ud : UserData) :
    (rollover t ud).last_rewrite_date = t ∨
    (ud.last_rewrite_date = t ∧ rollover t ud = ud) := by
  unfold rollover
  split
  · exact Or.inl rfl
  · next h => exact Or.inr ⟨not_ne_iff.mp h, rfl⟩

theorem rollover_last_eq (t : String) (ud : UserData) :
    (rollover t ud).last_rewrite_date = t := by
  rcases rollover_last t ud with h | ⟨h1, h2⟩
  · exact h
  · rw [h2, h1]

theorem rollover_of_ne (t : String) (ud : UserData)
    (h : ud.last_rewrite_date ≠ t) :
    rollover t ud = { ud with rewrites_today := some 0, last_rewrite_date := t } := by
  unfold rollover; rw [if_pos h]

theorem rollover_eq_self (t : String) (ud : UserData)
    (h : ud.last_rewrite_date = t) : rollover t ud = ud := by
  unfold rollover; rw [if_neg (not_ne_iff.mpr h)]

theorem rollover_idem (t : String) (ud : UserData) :
    rollover t (rollover t ud) = rollover t ud :=
  rollover_eq_self t (rollover t ud) (rollover_last_eq t ud)

theorem evaluate_snd (t s : String) (ud : UserData) :
    (evaluate t s ud).2 = rollover t ud := by
  unfold evaluate; split_ifs <;> rfl

theorem evaluate_quota (t s : String) (ud : UserData)
    (h : jsOrZero (rollover t ud).rewrites_today ≥ userLimitOf (jsOrFree ud.tier)) :
    evaluate t s ud = (Decision.quotaExceeded, rollover t ud) := by
  unfold evaluate; rw [if_pos h]

theorem evaluate_style (t s : String) (ud : UserData)
    (hq : ¬ jsOrZero (rollover t ud).rewrites_today ≥ userLimitOf (jsOrFree ud.tier))
    (hs : jsOrFree ud.tier = "free" ∧ jsToLower s ∈ paidStyles) :
    evaluate t s ud = (Decision.styleNotEntitled, rollover t ud) := by
  unfold evaluate; rw [if_neg hq, if_pos hs]

theorem evaluate_admitted (t s : String) (ud : UserData)
    (hq : ¬ jsOrZero (rollover t ud).rewrites_today ≥ userLimitOf (jsOrFree ud.tier))
    (hs : ¬ (jsOrFree ud.tier = "free" ∧ jsToLower s ∈ paidStyles)) :
    evaluate t s ud = (Decision.admitted, rollover t ud) := by
  unfold evaluate; rw [if_neg hq, if_neg hs]

theorem handler_userRecord (req : Request) (env : Env) (ud : UserData)
    (hauth : req.auth = AuthInput.userRecord ud)
    (htext : isBlank req.text ≠ true)
    (hstyle : req.style ≠ "")
    (hkey : env.anthropicKeySet = true) :
    handler req env = handleAuthed req env ud := by
  unfold handler
  rw [if_neg htext, if_neg hstyle, if_neg (by simp [hkey]), hauth]
  rfl

theorem handler_anonymous (req : Request) (env : Env)
    (hanon : userDataOf req.auth = none)
    (htext : isBlank req.text ≠ true)
    (hstyle : req.style ≠ "")
    (hkey : env.anthropicKeySet = true) :
    handler req env = finishAdmitted req env none "free" := by
  unfold handler
  rw [if_neg htext, if_neg hstyle, if_neg (by simp [hkey]), hanon]

theorem handleAuthed_quota (req : Request) (env : Env) (ud : UserData)
    (h : jsOrZero (rollover env.today ud).rewrites_today ≥ userLimitOf (jsOrFree ud.tier)) :
    handleAuthed req env ud =
      { resp := { status := 429, error := some "Daily limit reached",
                  message := some (upgradeMessage (jsOrFree ud.tier)),
                  remaining := some 0 },
        db := some (rollover env.today ud) } := by
  unfold handleAuthed
  rw [evaluate_quota env.today req.style ud h]

theorem handleAuthed_style (req : Request) (env : Env) (ud : UserData)
    (hq : ¬ jsOrZero (rollover env.today ud).rewrites_today ≥ userLimitOf (jsOrFree ud.tier))
    (hs : jsOrFree ud.tier = "free" ∧ jsToLower req.style ∈ paidStyles) :
    handleAuthed req env ud =
      { resp := { status := 403, error := some "Premium style",
                  message := some (premiumStyleMessage req.style),
                  remaining := some ((userLimitOf (jsOrFree ud.tier) : Int)
                    - (jsOrZero (rollover env.today ud).rewrites_today : Int)) },
        db := some (rollover env.today ud) } := by
  unfold handleAuthed
  rw [evaluate_style env.today req.style ud hq hs]

theorem handleAuthed_admitted (req : Request) (env : Env) (ud : UserData)
    (hq : ¬ jsOrZero (rollover env.today ud).rewrites_today ≥ userLimitOf (jsOrFree ud.tier))
    (hs : ¬ (jsOrFree ud.tier = "free" ∧ jsToLower req.style ∈ paidStyles)) :
    handleAuthed req env ud =
      finishAdmitted req env (some (rollover env.today ud)) (jsOrFree ud.tier) := by
  unfold handleAuthed
  rw [evaluate_admitted env.today req.style ud hq hs]

theorem handleAuthed_of_admitted (req : Request) (env : Env) (ud : UserData)
    (h : (evaluate env.today req.style ud).1 = Decision.admitted) :
    handleAuthed req env ud =
      finishAdmitted req env (some (rollover env.today ud)) (jsOrFree ud.tier) := by
  have h2 : evaluate env.today req.style ud = (Decision.admitted, rollover env.today ud) := by
    rw [Prod.ext_iff]
    exact ⟨h, evaluate_snd env.today req.style ud⟩
  unfold handleAuthed
  rw [h2]

theorem stylePrompts_none (text : String) (key : String)
    (hfree : key ∉ freeStyles) (hpaid : key ∉ paidStyles) :
    stylePrompts text key = none := by
  simp only [freeStyles, List.mem_cons, List.not_mem_nil, or_false, not_or] at hfree
  simp only [paidStyles, List.mem_cons, List.not_mem_nil, or_false, not_or] at hpaid
  obtain ⟨h1, h2, h3⟩ := hfree
  obtain ⟨h4, h5, h6, h7⟩ := hpaid
  unfold stylePrompts
  rw [if_neg h1, if_neg h3, if_neg h2, if_neg h4, if_neg h5, if_neg h6, if_neg h7]

theorem finishAdmitted_claudeFail (req : Request) (env : Env)
    (udOpt : Option UserData) (userTier : String)
    (hc : env.claudeOk = false) :
    finishAdmitted req env udOpt userTier =
      { resp := { status := 500, error := some "AI service error" },
        db := udOpt,
        prompt := some (getPromptForStyle req.text req.style) } := by
  unfold finishAdmitted; rw [if_pos hc]

theorem finishAdmitted_ok_commit (req : Request) (env : Env)
    (ud1 : UserData) (userTier : String)
    (hc : env.claudeOk = true) (hd : env.dbCommitOk = true) :
    finishAdmitted req env (some ud1) userTier =
      { resp := { status := 200, result := some env.claudeText,
                  remaining := some (remainingAfter userTier (some ud1)) },
        db := some (commit ud1),
        prompt := some (getPromptForStyle req.text req.style) } := by
  unfold finishAdmitted
  rw [if_neg (by simp [hc])]
  simp [hd]

theorem finishAdmitted_ok_noCommit (req : Request) (env : Env)
    (ud1 : UserData) (userTier : String)
    (hc : env.claudeOk = true) (hd : env.dbCommitOk = false) :
    finishAdmitted req env (some ud1) userTier =
      { resp := { status := 200, result := some env.claudeText,
                  remaining := some (remainingAfter userTier (some ud1)) },
        db := some ud1,
        prompt := some (getPromptForStyle req.text req.style) } := by
  unfold finishAdmitted
  rw [if_neg (by simp [hc])]
  simp [hd]

theorem finishAdmitted_ok_anon (req : Request) (env : Env) (userTier : String)
    (hc : env.claudeOk = true) :
    finishAdmitted req env none userTier =
      { resp := { status := 200, result := some env.claudeText,
                  remaining := some (remainingAfter userTier none) },
        db := none,
        prompt := some (getPromptForStyle req.text req.style) } := by
  unfold finishAdmitted
  rw [if_neg (by simp [hc])]

theorem commit_fields (ud : UserData) :
    (commit ud).rewrites_today = some (jsOrZero ud.rewrites_today + 1) ∧
    (commit ud).rewrites_total = some (jsOrZero ud.rewrites_total + 1) ∧
    (commit ud).last_rewrite_date = ud.last_rewrite_date ∧
    (commit ud).tier = ud.tier :=
  ⟨rfl, rfl, rfl, rfl⟩

/-! ### Claim theorems -/

/-- Claim C1: for every authenticated user whose usage record, after date
rollover, has `rewritesToday` at or above the daily quota of their tier, the
rewrite request is rejected with HTTP 429 carrying `remaining = 0`, and the
commit step is never invoked: the persisted row is exactly the post-rollover
record, whose `rewrites_total` equals the original record's. -/
theorem c1_quota_exceeded_rejected (req : Request) (env : Env) (ud : UserData)
    (hauth : req.auth = AuthInput.userRecord ud)
    (htext : isBlank req.text ≠ true)
    (hstyle : req.style ≠ "")
    (hkey : env.anthropicKeySet = true)
    (hquota : jsOrZero (rollover env.today ud).rewrites_today ≥
      userLimitOf (jsOrFree ud.tier)) :
    (handler req env).resp.status = 429 ∧
    (handler req env).resp.remaining = some 0 ∧
    (handler req env).db = some (rollover env.today ud) ∧
    (rollover env.today ud).rewrites_total = ud.rewrites_total := by
  rw [handler_userRecord req env ud hauth htext hstyle hkey,
      handleAuthed_quota req env ud hquota]
  exact ⟨rfl, rfl, rfl, rollover_rewrites_total env.today ud⟩

def c1User : UserData :=
  { tier := some "free", rewrites_today := some 2, rewrites_total := some 7,
    last_rewrite_date := "2026-10-11" }

def c1Req : Request :=
  { text := "buy milk", style := "professional", auth := AuthInput.userRecord c1User }

def c1Env : Env :=
  { anthropicKeySet := true, today := "2026-10-11", claudeOk := true,
    claudeText := "Please buy milk.", dbCommitOk := true }

/-- Concrete instantiation of claim C1: a free-tier user who already used
both daily rewrites is rejected with 429 and an unchanged row. -/
theorem c1_quota_exceeded_rejected_witness :
    (handler c1Req c1Env).resp.status = 429 ∧
    (handler c1Req c1Env).resp.remaining = some 0 ∧
    (handler c1Req c1Env).db = some (rollover c1Env.today c1User) ∧
    (rollover c1Env.today c1User).rewrites_total = c1User.rewrites_total :=
  c1_quota_exceeded_rejected c1Req c1Env c1User rfl (by decide) (by decide) rfl
    (by decide)

/-- Claim C2: for every usage record whose `lastRewriteDate` differs from
today, the handler's persisted outcome reflects the date rollover on every
path — rejected or admitted, generation failed or succeeded — the final row
has `lastRewriteDate = today` and a daily counter of 0 (reset) or 1 (reset
plus the admitted increment). -/
theorem c2_rollover_persisted (req : Request) (env : Env) (ud : UserData)
    (hauth : req.auth = AuthInput.userRecord ud)
    (htext : isBlank req.text ≠ true)
    (hstyle : req.style ≠ "")
    (hkey : env.anthropicKeySet = true)
    (hdate : ud.last_rewrite_date ≠ env.today) :
    ∃ ud2, (handler req env).db = some ud2 ∧
      ud2.last_rewrite_date = env.today ∧
      (ud2.rewrites_today = some 0 ∨ ud2.rewrites_today = some 1) := by
  rw [handler_userRecord req env ud hauth htext hstyle hkey]
  have hroll : (rollover env.today ud).rewrites_today = some 0 := by
    rw [rollover_of_ne env.today ud hdate]
  by_cases hq : jsOrZero (rollover env.today ud).rewrites_today ≥
      userLimitOf (jsOrFree ud.tier)
  · rw [handleAuthed_quota req env ud hq]
    exact ⟨rollover env.today ud, rfl, rollover_last_eq env.today ud, Or.inl hroll⟩
  · by_cases hs : jsOrFree ud.tier = "free" ∧ jsToLower req.style ∈ paidStyles
    · rw [handleAuthed_style req env ud hq hs]
      exact ⟨rollover env.today ud, rfl, rollover_last_eq env.today ud, Or.inl hroll⟩
    · rw [handleAuthed_admitted req env ud hq hs]
      by_cases hc : env.claudeOk = true
      · by_cases hd : env.dbCommitOk = true
        · rw [finishAdmitted_ok_commit req env _ _ hc hd]
          refine ⟨commit (rollover env.today ud), rfl, ?_, Or.inr ?_⟩
          · rw [(commit_fields _).2.2.1, rollover_last_eq]
          · rw [(commit_fields _).1, hroll]
            rfl
        · rw [finishAdmitted_ok_noCommit req env _ _ hc
            (by simp only [Bool.not_eq_true] at hd; exact hd)]
          exact ⟨rollover env.today ud, rfl, rollover_last_eq env.today ud,
            Or.inl hroll⟩
      · rw [finishAdmitted_claudeFail req env _ _
          (by simp only [Bool.not_eq_true] at hc; exact hc)]
        exact ⟨rollover env.today ud, rfl, rollover_last_eq env.today ud,
          Or.inl hroll⟩

def c2User : UserData :=
  { tier := some "free", rewrites_today := some 2, rewrites_total := some 9,
    last_rewrite_date := "2026-10-10" }

def c2Req : Request :=
  { text := "buy milk", style := "professional", auth := AuthInput.userRecord c2User }

def c2Env : Env :=
  { anthropicKeySet := true, today := "2026-10-11", claudeOk := true,
    claudeText := "Please buy milk.", dbCommitOk := true }

/-- Concrete instantiation of claim C2: a stale record from yesterday with a
full counter is reset on the next request, and the reset is persisted. -/
theorem c2_rollover_persisted_witness :
    ∃ ud2, (handler c2Req c2Env).db = some ud2 ∧
      ud2.last_rewrite_date = c2Env.today ∧
      (ud2.rewrites_today = some 0 ∨ ud2.rewrites_today = some 1) :=
  c2_rollover_persisted c2Req c2Env c2User rfl (by decide) (by decide) rfl
    (by decide)

/-- Claim C3: if the text-transform collaborator call fails after the request
was admitted, the handler returns HTTP 500 and the persisted row is the
post-rollover record with no commit: neither `rewrites_today` nor
`rewrites_total` was incremented, so the failed generation cost no quota
unit. -/
theorem c3_collaborator_failure_no_charge (req : Request) (env : Env)
    (ud : UserData)
    (hauth : req.auth = AuthInput.userRecord ud)
    (htext : isBlank req.text ≠ true)
    (hstyle : req.style ≠ "")
    (hkey : env.anthropicKeySet = true)
    (hadm : (evaluate env.today req.style ud).1 = Decision.admitted)
    (hclaude : env.claudeOk = false) :
    (handler req env).resp.status = 500 ∧
    (handler req env).db = some (rollover env.today ud) ∧
    (rollover env.today ud).rewrites_total = ud.rewrites_total := by
  rw [handler_userRecord req env ud hauth htext hstyle hkey,
      handleAuthed_of_admitted req env ud hadm,
      finishAdmitted_claudeFail req env _ _ hclaude]
  exact ⟨rfl, rfl, rollover_rewrites_total env.today ud⟩

def c3User : UserData :=
  { tier := some "free", rewrites_today := some 0, rewrites_total := some 3,
    last_rewrite_date := "2026-10-11" }

def c3Req : Request :=
  { text := "buy milk", style := "professional", auth := AuthInput.userRecord c3User }

def c3Env : Env :=
  { anthropicKeySet := true, today := "2026-10-11", claudeOk := false,
    claudeText := "", dbCommitOk := true }

/-- Concrete instantiation of claim C3: an admitted free-tier request whose
generation fails returns 500 and leaves the counters untouched. -/
theorem c3_collaborator_failure_no_charge_witness :
    (handler c3Req c3Env).resp.status = 500 ∧
    (handler c3Req c3Env).db = some (rollover c3Env.today c3User) ∧
    (rollover c3Env.today c3User).rewrites_total = c3User.rewrites_total :=
  c3_collaborator_failure_no_charge c3Req c3Env c3User rfl (by decide)
    (by decide) rfl (by decide) rfl

def c4User : UserData :=
  { tier := some "standard", rewrites_today := some 0, rewrites_total := some 5,
    last_rewrite_date := "2026-10-11" }

def c4Req : Request :=
  { text := "buy milk", style := "professional", auth := AuthInput.userRecord c4User }

def c4Env : Env :=
  { anthropicKeySet := true, today := "2026-10-11", claudeOk := true,
    claudeText := "Please buy milk.", dbCommitOk := true }

/-- Counterexample to claim C4 as stated: a standard-tier user with
`rewritesToday = 0` is admitted and committed, yet the 200 response reports
`remaining = 10` — the full daily limit — not
`limit - (pre-request rewritesToday + 1) = 9`. -/
theorem c4_remaining_counterexample :
    (handler c4Req c4Env).resp.status = 200 ∧
    (handler c4Req c4Env).db = some (commit c4User) ∧
    (handler c4Req c4Env).resp.remaining = some 10 ∧
    userLimitOf (jsOrFree c4User.tier) = 10 ∧
    jsOrZero c4User.rewrites_today = 0 ∧
    ¬ ((10 : Int) - (0 + 1) = 10) := by decide

/-- Claim C4 (amended): for every authenticated admitted request whose
generation succeeds, the 200 response's `remaining` equals
`limit - (post-rollover rewritesToday + 1)` when the user's tier is free, and
the full daily limit — not reduced by usage — for every other tier. -/
theorem c4_remaining_reported (req : Request) (env : Env) (ud : UserData)
    (hauth : req.auth = AuthInput.userRecord ud)
    (htext : isBlank req.text ≠ true)
    (hstyle : req.style ≠ "")
    (hkey : env.anthropicKeySet = true)
    (hadm : (evaluate env.today req.style ud).1 = Decision.admitted)
    (hclaude : env.claudeOk = true) :
    (handler req env).resp.status = 200 ∧
    (handler req env).resp.remaining = some (
      if jsOrFree ud.tier = "free" then
        (userLimitOf (jsOrFree ud.tier) : Int)
          - ((jsOrZero (rollover env.today ud).rewrites_today : Int) + 1)
      else (userLimitOf (jsOrFree ud.tier) : Int)) := by
  rw [handler_userRecord req env ud hauth htext hstyle hkey,
      handleAuthed_of_admitted req env ud hadm]
  by_cases hd : env.dbCommitOk = true
  · rw [finishAdmitted_ok_commit req env _ _ hclaude hd]
    exact ⟨rfl, rfl⟩
  · rw [finishAdmitted_ok_noCommit req env _ _ hclaude
      (by simp only [Bool.not_eq_true] at hd; exact hd)]
    exact ⟨rfl, rfl⟩

/-- Concrete instantiation of the amended claim C4: the admitted standard-tier
request reports the full limit of 10. -/
theorem c4_remaining_reported_witness :
    (handler c4Req c4Env).resp.status = 200 ∧
    (handler c4Req c4Env).resp.remaining = some (
      if jsOrFree c4User.tier = "free" then
        (userLimitOf (jsOrFree c4User.tier) : Int)
          - ((jsOrZero (rollover c4Env.today c4User).rewrites_today : Int) + 1)
      else (userLimitOf (jsOrFree c4User.tier) : Int)) :=
  c4_remaining_reported c4Req c4Env c4User rfl (by decide) (by decide) rfl
    (by decide) rfl

def c5User : UserData :=
  { tier := some "free", rewrites_today := some 0, rewrites_total := some 0,
    last_rewrite_date := "2026-10-11" }

def c5Req : Request :=
  { text := "buy milk", style := "pirate", auth := AuthInput.userRecord c5User }

def c5Env : Env :=
  { anthropicKeySet := true, today := "2026-10-11", claudeOk := true,
    claudeText := "Arr, buy milk.", dbCommitOk := true }

/-- Counterexample to claim C5 as stated: `pirate` is not in the free tier's
allowed style set and the free-tier user is below quota, yet the request is
not rejected with 403 — the handler admits it and returns 200, because only
the four listed paid styles are gated. -/
theorem c5_style_gate_counterexample :
    jsToLower c5Req.style ∉ freeStyles ∧
    jsOrZero c5User.rewrites_today < userLimitOf (jsOrFree c5User.tier) ∧
    (handler c5Req c5Env).resp.status = 200 ∧
    ¬ (handler c5Req c5Env).resp.status = 403 := by decide

/-- Claim C5 (amended): for every free-tier user strictly below the daily
quota (after rollover) whose requested style lowercases into the listed paid
set — persuasive, casual, formal, empathetic — the handler rejects with
HTTP 403 reporting `remaining = limit - rewritesToday`, and the rejection
does not consume quota: the persisted row is the post-rollover record. -/
theorem c5_paid_style_rejected (req : Request) (env : Env) (ud : UserData)
    (hauth : req.auth = AuthInput.userRecord ud)
    (htext : isBlank req.text ≠ true)
    (hstyle : req.style ≠ "")
    (hkey : env.anthropicKeySet = true)
    (htier : jsOrFree ud.tier = "free")
    (hpaid : jsToLower req.style ∈ paidStyles)
    (hquota : jsOrZero (rollover env.today ud).rewrites_today <
      userLimitOf (jsOrFree ud.tier)) :
    (handler req env).resp.status = 403 ∧
    (handler req env).resp.remaining = some ((userLimitOf (jsOrFree ud.tier) : Int)
      - (jsOrZero (rollover env.today ud).rewrites_today : Int)) ∧
    (handler req env).db = some (rollover env.today ud) := by
  rw [handler_userRecord req env ud hauth htext hstyle hkey,
      handleAuthed_style req env ud (not_le.mpr hquota) ⟨htier, hpaid⟩]
  exact ⟨rfl, rfl, rfl⟩

def c5bUser : UserData :=
  { tier := some "free", rewrites_today := some 1, rewrites_total := some 6,
    last_rewrite_date := "2026-10-11" }

def c5bReq : Request :=
  { text := "buy milk", style := "persuasive", auth := AuthInput.userRecord c5bUser }

/-- Concrete instantiation of the amended claim C5: a free-tier user with one
rewrite left who requests `persuasive` receives 403 with `remaining = 1` and
an unchanged row. -/
theorem c5_paid_style_rejected_witness :
    (handler c5bReq c5Env).resp.status = 403 ∧
    (handler c5bReq c5Env).resp.remaining = some
      ((userLimitOf (jsOrFree c5bUser.tier) : Int)
        - (jsOrZero (rollover c5Env.today c5bUser).rewrites_today : Int)) ∧
    (handler c5bReq c5Env).db = some (rollover c5Env.today c5bUser) :=
  c5_paid_style_rejected c5bReq c5Env c5bUser rfl (by decide) (by decide) rfl
    (by decide) (by decide) (by decide)

def c6User : UserData :=
  { tier := some "free", rewrites_today := some 2, rewrites_total := some 4,
    last_rewrite_date := "2026-10-11" }

def c6Req : Request :=
  { text := "buy milk", style := "formal", auth := AuthInput.userRecord c6User }

def c6Env : Env :=
  { anthropicKeySet := true, today := "2026-10-11", claudeOk := true,
    claudeText := "Kindly purchase milk.", dbCommitOk := true }

/-- Counterexample to claim C6 as stated: a free-tier user who has exhausted
the daily quota and requests `formal` is caught by the quota check, which
runs before the style check — the response is 429, not the claimed 403, so
the 403 does not hold regardless of counter state. -/
theorem c6_formal_at_quota_counterexample :
    jsOrZero c6User.rewrites_today ≥ userLimitOf (jsOrFree c6User.tier) ∧
    (handler c6Req c6Env).resp.status = 429 ∧
    ¬ (handler c6Req c6Env).resp.status = 403 := by decide

/-- Claim C6 (amended): a free-tier user requesting style `formal` is
rejected with HTTP 403 whenever the post-rollover daily counter is strictly
below the quota; once the counter reaches the quota, the earlier quota check
takes precedence. -/
theorem c6_free_formal_rejected (req : Request) (env : Env) (ud : UserData)
    (hauth : req.auth = AuthInput.userRecord ud)
    (htext : isBlank req.text ≠ true)
    (hkey : env.anthropicKeySet = true)
    (hstylev : req.style = "formal")
    (htier : jsOrFree ud.tier = "free")
    (hquota : jsOrZero (rollover env.today ud).rewrites_today <
      userLimitOf (jsOrFree ud.tier)) :
    (handler req env).resp.status = 403 := by
  have hstyle : req.style ≠ "" := by rw [hstylev]; decide
  have hpaid : jsToLower req.style ∈ paidStyles := by rw [hstylev]; decide
  rw [handler_userRecord req env ud hauth htext hstyle hkey,
      handleAuthed_style req env ud (not_le.mpr hquota) ⟨htier, hpaid⟩]

def c6bUser : UserData :=
  { tier := some "free", rewrites_today := some 0, rewrites_total := some 4,
    last_rewrite_date := "2026-10-11" }

def c6bReq : Request :=
  { text := "buy milk", style := "formal", auth := AuthInput.userRecord c6bUser }

/-- Concrete instantiation of the amended claim C6: a free-tier user with an
empty counter who requests `formal` receives 403. -/
theorem c6_free_formal_rejected_witness :
    (handler c6bReq c6Env).resp.status = 403 :=
  c6_free_formal_rejected c6bReq c6Env c6bUser rfl (by decide) rfl rfl
    (by decide) (by decide)

/-- Claim C7: for every admitted request whose generation succeeds, a failure
of the usage-counter/history database block does not fail the request: the
handler still returns HTTP 200 with the rewritten text and a remaining
count. -/
theorem c7_persistence_failure_still_200 (req : Request) (env : Env)
    (ud : UserData)
    (hauth : req.auth = AuthInput.userRecord ud)
    (htext : isBlank req.text ≠ true)
    (hstyle : req.style ≠ "")
    (hkey : env.anthropicKeySet = true)
    (hadm : (evaluate env.today req.style ud).1 = Decision.admitted)
    (hclaude : env.claudeOk = true)
    (hdb : env.dbCommitOk = false) :
    (handler req env).resp.status = 200 ∧
    (handler req env).resp.result = some env.claudeText ∧
    ((handler req env).resp.remaining).isSome = true := by
  rw [handler_userRecord req env ud hauth htext hstyle hkey,
      handleAuthed_of_admitted req env ud hadm,
      finishAdmitted_ok_noCommit req env _ _ hclaude hdb]
  exact ⟨rfl, rfl, rfl⟩

def c7User : UserData :=
  { tier := some "pro", rewrites_today := some 3, rewrites_total := some 40,
    last_rewrite_date := "2026-10-11" }

def c7Req : Request :=
  { text := "buy milk", style := "casual", auth := AuthInput.userRecord c7User }

def c7Env : Env :=
  { anthropicKeySet := true, today := "2026-10-11", claudeOk := true,
    claudeText := "Hey, grab some milk.", dbCommitOk := false }

/-- Concrete instantiation of claim C7: a pro-tier request whose bookkeeping
write fails still returns 200 with the rewritten text. -/
theorem c7_persistence_failure_still_200_witness :
    (handler c7Req c7Env).resp.status = 200 ∧
    (handler c7Req c7Env).resp.result = some c7Env.claudeText ∧
    ((handler c7Req c7Env).resp.remaining).isSome = true :=
  c7_persistence_failure_still_200 c7Req c7Env c7User rfl (by decide)
    (by decide) rfl (by decide) rfl rfl

/-- Claim C8: every request that resolves to no usage record — a missing
`Authorization` header, a token that fails verification, a verified user with
no database row, or an exception during identity resolution — is admitted
with no quota or style check and no counter update: the handler never answers
401, 403 or 429 on this path, and a successful generation yields 200. -/
theorem c8_anonymous_unmetered (req : Request) (env : Env)
    (hanon : userDataOf req.auth = none)
    (htext : isBlank req.text ≠ true)
    (hstyle : req.style ≠ "")
    (hkey : env.anthropicKeySet = true) :
    (handler req env).db = none ∧
    ¬ (handler req env).resp.status = 401 ∧
    ¬ (handler req env).resp.status = 403 ∧
    ¬ (handler req env).resp.status = 429 ∧
    (env.claudeOk = true → (handler req env).resp.status = 200) := by
  rw [handler_anonymous req env hanon htext hstyle hkey]
  by_cases hc : env.claudeOk = true
  · rw [finishAdmitted_ok_anon req env _ hc]
    exact ⟨rfl, by simp, by simp, by simp, fun _ => rfl⟩
  · rw [finishAdmitted_claudeFail req env _ _
      (by simp only [Bool.not_eq_true] at hc; exact hc)]
    exact ⟨rfl, by simp, by simp, by simp, fun h => absurd h hc⟩

def c8Req : Request :=
  { text := "buy milk", style := "persuasive", auth := AuthInput.noHeader }

def c8Env : Env :=
  { anthropicKeySet := true, today := "2026-10-11", claudeOk := true,
    claudeText := "You will love this milk.", dbCommitOk := true }

/-- Concrete instantiation of claim C8: a caller with no `Authorization`
header requesting a paid style is served with 200 and nothing is metered. -/
theorem c8_anonymous_unmetered_witness :
    (handler c8Req c8Env).db = none ∧
    ¬ (handler c8Req c8Env).resp.status = 401 ∧
    ¬ (handler c8Req c8Env).resp.status = 403 ∧
    ¬ (handler c8Req c8Env).resp.status = 429 ∧
    (c8Env.claudeOk = true → (handler c8Req c8Env).resp.status = 200) :=
  c8_anonymous_unmetered c8Req c8Env rfl (by decide) (by decide) rfl

/-- Claim C9: evaluation without commit is idempotent on rejection: running
`evaluate` again on the record persisted by a rejecting `evaluate`, with the
same date, yields the same decision and the same record, so the repeat does
not mutate `rewritesToday`. -/
theorem c9_evaluate_idempotent (t s : String) (ud : UserData)
    (hrej : (evaluate t s ud).1 ≠ Decision.admitted) :
    evaluate t s (evaluate t s ud).2 = evaluate t s ud := by
  rw [evaluate_snd t s ud]
  unfold evaluate
  rw [rollover_idem t ud, rollover_tier t ud]

def c9User : UserData :=
  { tier := some "free", rewrites_today := some 2, rewrites_total := some 2,
    last_rewrite_date := "2026-10-11" }

/-- Concrete instantiation of claim C9: re-evaluating the record left by a
quota rejection reproduces the rejection unchanged. -/
theorem c9_evaluate_idempotent_witness :
    evaluate "2026-10-11" "professional"
      (evaluate "2026-10-11" "professional" c9User).2 =
    evaluate "2026-10-11" "professional" c9User :=
  c9_evaluate_idempotent "2026-10-11" "professional" c9User (by decide)

def c10cUser : UserData :=
  { tier := some "pro", rewrites_today := some 0, rewrites_total := some 0,
    last_rewrite_date := "2026-10-11" }

def c10cReq : Request :=
  { text := "buy milk", style := "constructor", auth := AuthInput.userRecord c10cUser }

def c10cEnv : Env :=
  { anthropicKeySet := true, today := "2026-10-11", claudeOk := true,
    claudeText := "Please buy milk.", dbCommitOk := true }

/-- Counterexample to claim C10 as stated: the style `constructor` is outside
both known style lists and the request is indeed not rejected as
StyleNotEntitled — but the value handed to the collaborator is the member
inherited from `Object.prototype`, truthy and therefore not replaced by the
`||` fallback at line 269, not the professional prompt the claim asserts. -/
theorem c10_prototype_key_counterexample :
    jsToLower c10cReq.style ∉ freeStyles ∧
    jsToLower c10cReq.style ∉ paidStyles ∧
    ¬ (handler c10cReq c10cEnv).resp.status = 403 ∧
    (handler c10cReq c10cEnv).prompt = some JsProp.protoMember ∧
    ¬ (handler c10cReq c10cEnv).prompt
        = some (JsProp.str (professionalPrompt c10cReq.text)) := by decide

/-- Claim C10 (amended): a style outside every known style list — not a free
style and not a listed paid style — is never rejected as StyleNotEntitled on
any tier, and when generation and bookkeeping succeed the request returns
200 and consumes one quota unit; it is rewritten with the professional
prompt as fallback provided its lowercase form is additionally not one of
the two `Object.prototype` property names `constructor` and `__proto__`,
whose truthy inherited members bypass the fallback. -/
theorem c10_unknown_style_admitted (req : Request) (env : Env) (ud : UserData)
    (hauth : req.auth = AuthInput.userRecord ud)
    (htext : isBlank req.text ≠ true)
    (hstyle : req.style ≠ "")
    (hkey : env.anthropicKeySet = true)
    (hfree : jsToLower req.style ∉ freeStyles)
    (hpaid : jsToLower req.style ∉ paidStyles)
    (hquota : jsOrZero (rollover env.today ud).rewrites_today <
      userLimitOf (jsOrFree ud.tier)) :
    ¬ (handler req env).resp.status = 403 ∧
    (env.claudeOk = true → env.dbCommitOk = true →
      ((handler req env).resp.status = 200 ∧
       (handler req env).db = some (commit (rollover env.today ud)) ∧
       (commit (rollover env.today ud)).rewrites_today =
         some (jsOrZero (rollover env.today ud).rewrites_today + 1) ∧
       (jsToLower req.style ≠ "constructor" → jsToLower req.style ≠ "__proto__" →
         (handler req env).prompt = some (JsProp.str (professionalPrompt req.text))))) := by
  have hs : ¬ (jsOrFree ud.tier = "free" ∧ jsToLower req.style ∈ paidStyles) :=
    fun h => hpaid h.2
  rw [handler_userRecord req env ud hauth htext hstyle hkey,
      handleAuthed_admitted req env ud (not_le.mpr hquota) hs]
  refine ⟨?_, fun hc hd => ?_⟩
  · by_cases hc : env.claudeOk = true
    · by_cases hd : env.dbCommitOk = true
      · rw [finishAdmitted_ok_commit req env _ _ hc hd]; simp
      · rw [finishAdmitted_ok_noCommit req env _ _ hc
          (by simp only [Bool.not_eq_true] at hd; exact hd)]
        simp
    · rw [finishAdmitted_claudeFail req env _ _
        (by simp only [Bool.not_eq_true] at hc; exact hc)]
      simp
  · rw [finishAdmitted_ok_commit req env _ _ hc hd]
    refine ⟨rfl, rfl, rfl, fun hctor hproto => ?_⟩
    have hidx : jsIndex req.text (jsToLower req.style) = JsProp.undef := by
      unfold jsIndex
      rw [stylePrompts_none req.text (jsToLower req.style) hfree hpaid]
      exact if_neg (by simp [hctor, hproto])
    have hprompt : getPromptForStyle req.text req.style
        = JsProp.str (professionalPrompt req.text) := by
      unfold getPromptForStyle
      rw [hidx]
      rfl
    rw [HandlerOutput.prompt, hprompt]

def c10User : UserData :=
  { tier := some "free", rewrites_today := some 1, rewrites_total := some 8,
    last_rewrite_date := "2026-10-11" }

def c10Req : Request :=
  { text := "buy milk", style := "shakespearean", auth := AuthInput.userRecord c10User }

def c10Env : Env :=
  { anthropicKeySet := true, today := "2026-10-11", claudeOk := true,
    claudeText := "Pray thee, procure milk.", dbCommitOk := true }

/-- Concrete instantiation of the amended claim C10: the unknown style
`shakespearean` is admitted for a free-tier user, costs one quota unit, and
falls back to the professional prompt. -/
theorem c10_unknown_style_admitted_witness :
    ¬ (handler c10Req c10Env).resp.status = 403 ∧
    (c10Env.claudeOk = true → c10Env.dbCommitOk = true →
      ((handler c10Req c10Env).resp.status = 200 ∧
       (handler c10Req c10Env).db = some (commit (rollover c10Env.today c10User)) ∧
       (commit (rollover c10Env.today c10User)).rewrites_today =
         some (jsOrZero (rollover c10Env.today c10User).rewrites_today + 1) ∧
       (jsToLower c10Req.style ≠ "constructor" → jsToLower c10Req.style ≠ "__proto__" →
         (handler c10Req c10Env).prompt
           = some (JsProp.str (professionalPrompt c10Req.text))))) :=
  c10_unknown_style_admitted c10Req c10Env c10User rfl (by decide) (by decide)
    rfl (by decide) (by decide) (by decide)

end Clarity
